import Mathlib

/-!
# Shallow embedding of the BIP78 payjoin core (`bip78` crate)

This file embeds, in Lean 4, the validation and state-machine core of the
`bip78` crate:

* sender-side proposal validation (`src/bip78/src/sender/mod.rs`):
  `Context::process_proposal` with `basic_checks`, `check_inputs`,
  `check_outputs`, `check_fees`, together with `calculate_psbt_fee` and
  `clear_unneeded_fields`;
* receiver-side request parsing (`src/bip78/src/receiver/mod.rs`):
  `UncheckedProposal::from_request`;
* receiver-side phased intake (`src/bip78/src/state.rs`): `PsbtState<S>`
  with its `TryFrom`/`TryNext` transitions.

Machine integers (`u64` satoshi amounts, `u32` sequence numbers, weights)
are embedded as `Nat`; the `i32` transaction version as `Int`.  Rust panics
(`expect`/`unwrap`/`Amount` underflow) are embedded as distinguished error
constructors, so "the function returns `Ok`" in Rust corresponds exactly to
`.ok` here.

The crate's helper modules `psbt.rs`, `input_type.rs` and `weight.rs` and
the error-type modules are not part of the sources; the few pieces of them
this core calls (`input_pairs`, `previous_txout`, `InputType`,
`expected_input_weight`) are modelled from the specification and are
marked `Modelled from the spec:` in their doc comments.
-/

namespace Bip78

/-- A transaction outpoint (`bitcoin::OutPoint`): a txid (abstracted to a
number) and an output index. -/
structure OutPoint where
  txid : Nat
  vout : Nat
deriving DecidableEq, Repr

/-- The shape of a scriptPubKey as far as the input classifier looks at it
(P2PKH, P2SH, P2WPKH, P2WSH, P2TR, or anything else). -/
inductive ScriptKind where
  | p2pkh
  | p2sh
  | p2wpkh
  | p2wsh
  | p2tr
  | other
deriving DecidableEq, Repr

/-- A Bitcoin script (`bitcoin::Script`).  The core only ever compares
scripts for equality and classifies their shape, so a script is embedded as
its raw bytes together with its shape. -/
structure Script where
  kind : ScriptKind
  bytes : List Nat
deriving DecidableEq, Repr

/-- A transaction output (`bitcoin::TxOut`): value in satoshis and the
scriptPubKey. -/
structure TxOut where
  value : Nat
  script_pubkey : Script
deriving DecidableEq, Repr

/-- A transaction input (`bitcoin::TxIn`).  The witness field is not
consulted by the embedded code and is omitted. -/
structure TxIn where
  previous_output : OutPoint
  script_sig : Script
  sequence : Nat
deriving DecidableEq, Repr

/-- An unsigned transaction (`bitcoin::Transaction`).  `weight` is the
consensus weight of the serialized transaction
(`Transaction::weight()` of the external `bitcoin` crate, out of scope);
since serialization is not embedded, it is carried as data. -/
structure Tx where
  version : Int
  lock_time : Nat
  input : List TxIn
  output : List TxOut
  weight : Nat
deriving DecidableEq, Repr

/-- A per-input PSBT record (`bitcoin::util::psbt::Input`), restricted to
the fields the core reads or clears.  Key-value maps whose entries are
never inspected (`bip32_derivation`, `partial_sigs`, `proprietary`,
`unknown`) are embedded as opaque entry lists. -/
structure PsbtInput where
  witness_utxo : Option TxOut
  non_witness_utxo : Option Tx
  redeem_script : Option Script
  final_script_sig : Option Script
  final_script_witness : Option (List (List Nat))
  bip32_derivation : List Nat
  partial_sigs : List Nat
  proprietary : List Nat
  unknown : List Nat
deriving DecidableEq, Repr

/-- A per-input PSBT record with everything empty. -/
def PsbtInput.empty : PsbtInput :=
  ⟨none, none, none, none, none, [], [], [], []⟩

/-- A per-output PSBT record (`bitcoin::util::psbt::Output`), restricted to
the fields the core reads or clears. -/
structure PsbtOutput where
  bip32_derivation : List Nat
  proprietary : List Nat
  unknown : List Nat
deriving DecidableEq, Repr

/-- A per-output PSBT record with everything empty. -/
def PsbtOutput.empty : PsbtOutput := ⟨[], [], []⟩

/-- The PSBT global map (`psbt.global` minus the unsigned transaction),
restricted to the fields the core reads or clears. -/
structure PsbtGlobal where
  xpub : List Nat
  proprietary : List Nat
  unknown : List Nat
deriving DecidableEq, Repr

/-- A partially signed bitcoin transaction
(`bitcoin::util::psbt::PartiallySignedTransaction`): the unsigned
transaction (`global.unsigned_tx`), the remaining global fields, and the
per-input and per-output records. -/
structure Psbt where
  tx : Tx
  global : PsbtGlobal
  inputs : List PsbtInput
  outputs : List PsbtOutput
deriving DecidableEq, Repr

/-- A paired transaction input and its PSBT record, as produced by
`Psbt::input_pairs()` (crate module `psbt.rs`). -/
structure InputPair where
  txin : TxIn
  psbtin : PsbtInput
deriving DecidableEq, Repr

/-- Modelled from the spec: `psbt.rs` is not among the sources; §4.1 says
`input_pairs()` produces the sequence of (tx-input, psbt-input) pairs in
consensus order. -/
def Psbt.input_pairs (p : Psbt) : List InputPair :=
  (p.tx.input.zip p.inputs).map fun x => ⟨x.1, x.2⟩

/-- Modelled from the spec: `psbt.rs` is not among the sources; §4.1 says
`previous_txout()` is the funding output of the input, preferring the
witness UTXO when present, otherwise indexing the non-witness UTXO's
outputs by the outpoint's vout, and failing when neither side supplies
it or the vout is out of range. -/
def InputPair.previous_txout (ip : InputPair) : Option TxOut :=
  match ip.psbtin.witness_utxo with
  | some txout => some txout
  | none =>
    match ip.psbtin.non_witness_utxo with
    | some tx => tx.output.get? ip.txin.previous_output.vout
    | none => none

/-- `SegWitV0Type` of the input classifier (crate module `input_type.rs`,
named in the crate's own test `official_vectors`). -/
inductive SegWitV0Type where
  | pubkey
  | script
deriving DecidableEq, Repr

/-- `InputType` of the input classifier (crate module `input_type.rs`;
the variant `SegWitV0 { ty, nested }` appears in the crate's own test
`official_vectors`, the remaining variants follow spec §4.2). -/
inductive InputType where
  | Legacy
  | SegWitV0 (ty : SegWitV0Type) (nested : Bool)
  | Taproot
deriving DecidableEq, Repr

/-- The sender-side validation error type
(`InternalValidationError`, crate module `sender/error.rs`; the
constructor names are those raised by `sender/mod.rs` and listed in spec
§7).  The payload-carrying variants drop their payloads except where a
check reads them.  `PanicPrevoutMissing` and `PanicAmountUnderflow` embed
Rust panics (`expect`/`unwrap` on a missing prevout, `bitcoin::Amount`
subtraction underflow) as error outcomes. -/
inductive ValidationError where
  | Decode
  | InvalidProposedInput
  | VersionsDontMatch
  | LockTimesDontMatch
  | SenderTxinSequenceChanged
  | SenderTxinContainsNonWitnessUtxo
  | SenderTxinContainsWitnessUtxo
  | SenderTxinContainsFinalScriptSig
  | SenderTxinContainsFinalScriptWitness
  | TxInContainsKeyPaths
  | ContainsPartialSigs
  | ReceiverTxinMissingUtxoInfo
  | MixedSequence
  | MixedInputTypes
  | MissingOrShuffledInputs
  | TxOutContainsKeyPaths
  | DisallowedOutputSubstitution
  | OutputValueDecreased
  | MissingOrShuffledOutputs
  | Inflation
  | AbsoluteFeeDecreased
  | PayeeTookContributedFee
  | FeeContributionExceedsMaximum
  | FeeContributionPaysOutputSizeIncrease
  | UnknownInputType
  | PanicPrevoutMissing
  | PanicAmountUnderflow
deriving DecidableEq, Repr

/-- Modelled from the spec: `input_type.rs` is not among the sources; §4.2
gives the classifier `InputType::from_spent_input` on the funding txout and
the PSBT input record: P2PKH is Legacy; P2SH with a P2WPKH (resp. P2WSH)
redeemScript is nested SegWitV0 Pubkey (resp. Script), with another
redeemScript it is Legacy P2SH; P2WPKH / P2WSH are native SegWitV0; P2TR is
Taproot; any other shape fails with `UnknownInputType`. -/
def InputType.from_spent_input (txout : TxOut) (psbtin : PsbtInput) :
    Except ValidationError InputType :=
  match txout.script_pubkey.kind with
  | .p2pkh => .ok .Legacy
  | .p2sh =>
    match psbtin.redeem_script with
    | some r =>
      match r.kind with
      | .p2wpkh => .ok (.SegWitV0 .pubkey true)
      | .p2wsh => .ok (.SegWitV0 .script true)
      | _ => .ok .Legacy
    | none => .error .UnknownInputType
  | .p2wpkh => .ok (.SegWitV0 .pubkey false)
  | .p2wsh => .ok (.SegWitV0 .script false)
  | .p2tr => .ok .Taproot
  | .other => .error .UnknownInputType

/-- Modelled from the spec: `input_type.rs` / `weight.rs` are not among the
sources; §4.2 says `expected_input_weight()` returns the canonical
signed-input weight for the type.  The spec fixes no numeric values, so the
weights below are representative constants; no claim in this development
depends on the particular numbers, only on the function being applied in
the fee bound. -/
def InputType.expected_input_weight : InputType → Nat
  | .Legacy => 592
  | .SegWitV0 .pubkey _ => 272
  | .SegWitV0 .script _ => 368
  | .Taproot => 229

/-- Sender-side validation context (`Context`, `sender/mod.rs`):
the original PSBT, the effective disable-output-substitution flag, the
optional (max fee contribution in satoshis, fee output index), the zeroth
input's type and sequence number, and the payee script. -/
structure Context where
  original_psbt : Psbt
  disable_output_substitution : Bool
  fee_contribution : Option (Nat × Nat)
  input_type : InputType
  sequence : Nat
  payee : Script
deriving Repr

/-- The loop of `calculate_psbt_fee` over `psbt.input_pairs()`: sum the
funding-output values, `unwrap`ping each `previous_txout()` (the panic is
the `PanicPrevoutMissing` outcome). -/
def sum_prevout_values : List InputPair → Except ValidationError Nat
  | [] => .ok 0
  | ip :: rest =>
    match ip.previous_txout with
    | some txout =>
      match sum_prevout_values rest with
      | .ok s => .ok (txout.value + s)
      | .error e => .error e
    | none => .error .PanicPrevoutMissing

/-- `calculate_psbt_fee` (`sender/mod.rs`): total input prevout value minus
total output value of a PSBT.  The Rust code `unwrap`s each
`previous_txout()` and uses panicking `bitcoin::Amount` subtraction; both
panics are embedded as errors. -/
def calculate_psbt_fee (psbt : Psbt) : Except ValidationError Nat :=
  match sum_prevout_values psbt.input_pairs with
  | .error e => .error e
  | .ok total_inputs =>
    let total_outputs := (psbt.tx.output.map TxOut.value).sum
    if total_inputs < total_outputs then .error .PanicAmountUnderflow
    else .ok (total_inputs - total_outputs)

/-- `clear_unneeded_fields` (`sender/mod.rs`): clear the global xpub,
proprietary and unknown maps, and every per-input and per-output
bip32_derivation, proprietary and unknown map. -/
def clear_unneeded_fields (psbt : Psbt) : Psbt :=
  { psbt with
    global := { psbt.global with xpub := [], proprietary := [], unknown := [] }
    inputs := psbt.inputs.map fun i =>
      { i with bip32_derivation := [], proprietary := [], unknown := [] }
    outputs := psbt.outputs.map fun o =>
      { o with bip32_derivation := [], proprietary := [], unknown := [] } }

/-- The accumulator returned by `check_inputs` (`InputStats`,
`sender/mod.rs`).  The source also accumulates a `total_weight`
(`Weight`, from the absent `weight.rs`), but no later check reads it, so
it is omitted from the embedding. -/
structure InputStats where
  total_value : Nat
deriving DecidableEq, Repr

/-- The accumulator returned by `check_outputs` (`OutputStats`,
`sender/mod.rs`).  As with `InputStats`, the unread `total_weight`
accumulator is omitted. -/
structure OutputStats where
  total_value : Nat
  contributed_fee : Nat
deriving DecidableEq, Repr

/-- `basic_checks` (`sender/mod.rs`): the proposal's unsigned-tx version
and lock time must equal the original's. -/
def Context.basic_checks (ctx : Context) (proposal : Psbt) :
    Except ValidationError Unit :=
  if proposal.tx.version ≠ ctx.original_psbt.tx.version then
    .error .VersionsDontMatch
  else if proposal.tx.lock_time ≠ ctx.original_psbt.tx.lock_time then
    .error .LockTimesDontMatch
  else .ok ()

/-- The receiver-input arm of the `check_inputs` loop (`sender/mod.rs`,
the `None | Some(_)` match arm): the proposed input must carry a funding
record, its sequence must equal the sender's captured sequence, its
funding txout must resolve, and its classified type must equal the
sender's captured input type.  Returns the funding value to accumulate. -/
def Context.check_receiver_input (ctx : Context) (proposed : InputPair) :
    Except ValidationError Nat :=
  if ¬(proposed.psbtin.witness_utxo.isSome ∨ proposed.psbtin.non_witness_utxo.isSome) then
    .error .ReceiverTxinMissingUtxoInfo
  else if proposed.txin.sequence ≠ ctx.sequence then
    .error .MixedSequence
  else
    match proposed.previous_txout with
    | none => .error .InvalidProposedInput
    | some txout =>
      match InputType.from_spent_input txout proposed.psbtin with
      | .error e => .error e
      | .ok ty =>
        if ty ≠ ctx.input_type then .error .MixedInputTypes
        else .ok txout.value

/-- The loop of `check_inputs` (`sender/mod.rs`): walk the proposed input
pairs, holding a peekable cursor over the remaining original input pairs
and the running value total.  A proposed input matching the cursor head by
`previous_output` is a sender input (sequence unchanged, no echoed utxo or
finalization data, value taken from the original's prevout — the source
`expect`s it, embedded as `PanicPrevoutMissing` — cursor advanced); any
other proposed input is a receiver input (cursor not advanced).  At the
end the cursor must be exhausted. -/
def Context.check_inputs_go (ctx : Context) :
    List InputPair → List InputPair → Nat → Except ValidationError InputStats
  | [], original_inputs, total_value =>
    if original_inputs.isEmpty then .ok ⟨total_value⟩
    else .error .MissingOrShuffledInputs
  | proposed :: rest, original_inputs, total_value =>
    if ¬proposed.psbtin.bip32_derivation.isEmpty then .error .TxInContainsKeyPaths
    else if ¬proposed.psbtin.partial_sigs.isEmpty then .error .ContainsPartialSigs
    else
      match original_inputs with
      | original :: orig_rest =>
        if proposed.txin.previous_output = original.txin.previous_output then
          -- our (sender) input
          if proposed.txin.sequence ≠ original.txin.sequence then
            .error .SenderTxinSequenceChanged
          else if proposed.psbtin.non_witness_utxo.isSome then
            .error .SenderTxinContainsNonWitnessUtxo
          else if proposed.psbtin.witness_utxo.isSome then
            .error .SenderTxinContainsWitnessUtxo
          else if proposed.psbtin.final_script_sig.isSome then
            .error .SenderTxinContainsFinalScriptSig
          else if proposed.psbtin.final_script_witness.isSome then
            .error .SenderTxinContainsFinalScriptWitness
          else
            match original.previous_txout with
            | none => .error .PanicPrevoutMissing
            | some prevout =>
              ctx.check_inputs_go rest orig_rest (total_value + prevout.value)
        else
          match ctx.check_receiver_input proposed with
          | .error e => .error e
          | .ok v => ctx.check_inputs_go rest (original :: orig_rest) (total_value + v)
      | [] =>
        match ctx.check_receiver_input proposed with
        | .error e => .error e
        | .ok v => ctx.check_inputs_go rest [] (total_value + v)

/-- `check_inputs` (`sender/mod.rs`): run the input walk over the
proposal's input pairs against the original PSBT's input pairs. -/
def Context.check_inputs (ctx : Context) (proposal : Psbt) :
    Except ValidationError InputStats :=
  ctx.check_inputs_go proposal.input_pairs ctx.original_psbt.input_pairs 0

/-- The outcome of dispatching one proposed output against the head of the
output cursor in `check_outputs`: advance the cursor, advance it while
setting the contributed fee, keep the cursor in place (receiver-added
output), or fail. -/
inductive OutputDispatch where
  | advance
  | setFee (contributed_fee : Nat)
  | stay
  | fail (e : ValidationError)
deriving DecidableEq, Repr

/-- The guard cascade of the `check_outputs` loop (`sender/mod.rs`, the
`match (original_outputs.peek(), self.fee_contribution)` expression), for
a cursor head `(original_output_index, original_output)`:

* fee output — fee contribution recorded, scriptPubKeys equal and the head
  index equals the fee-output index: a lower proposed value contributes
  `original.value - proposed.value`, which must be strictly below the
  maximum; advance;
* payee output — head scriptPubKey equals the payee: with substitution
  disabled the scriptPubKey must be unchanged and the value must not
  decrease; advance;
* our output — scriptPubKeys equal: value must not decrease; advance;
* otherwise the proposed output is receiver-added: do not advance. -/
def Context.dispatch_output (ctx : Context) (proposed_txout : TxOut)
    (original_output_index : Nat) (original_output : TxOut) : OutputDispatch :=
  let rest_cascade : OutputDispatch :=
    if original_output.script_pubkey = ctx.payee then
      if ¬ctx.disable_output_substitution ∨
          (proposed_txout.script_pubkey = original_output.script_pubkey ∧
            original_output.value ≤ proposed_txout.value) then
        .advance
      else .fail .DisallowedOutputSubstitution
    else if proposed_txout.script_pubkey = original_output.script_pubkey then
      if original_output.value ≤ proposed_txout.value then .advance
      else .fail .OutputValueDecreased
    else .stay
  match ctx.fee_contribution with
  | some (max_fee_contrib, fee_contrib_idx) =>
    if proposed_txout.script_pubkey = original_output.script_pubkey ∧
        original_output_index = fee_contrib_idx then
      if proposed_txout.value < original_output.value then
        let contributed_fee := original_output.value - proposed_txout.value
        if contributed_fee < max_fee_contrib then .setFee contributed_fee
        else .fail .FeeContributionExceedsMaximum
      else .advance
    else rest_cascade
  | none => rest_cascade

/-- The loop of `check_outputs` (`sender/mod.rs`): walk the zipped
(tx-output, psbt-output) pairs of the proposal while holding a peekable
cursor of indexed outputs, accumulating the value total and the
contributed fee (the fee arm overwrites, not accumulates, matching the
source's assignment).  At the end the cursor must be exhausted. -/
def Context.check_outputs_go (ctx : Context) :
    List (TxOut × PsbtOutput) → List (Nat × TxOut) → Nat → Nat →
      Except ValidationError OutputStats
  | [], original_outputs, total_value, contributed_fee =>
    if original_outputs.isEmpty then .ok ⟨total_value, contributed_fee⟩
    else .error .MissingOrShuffledOutputs
  | (proposed_txout, proposed_psbtout) :: rest, original_outputs, total_value,
      contributed_fee =>
    if ¬proposed_psbtout.bip32_derivation.isEmpty then .error .TxOutContainsKeyPaths
    else
      let total_value := total_value + proposed_txout.value
      match original_outputs with
      | [] => ctx.check_outputs_go rest [] total_value contributed_fee
      | (original_output_index, original_output) :: orig_rest =>
        match ctx.dispatch_output proposed_txout original_output_index original_output with
        | .advance => ctx.check_outputs_go rest orig_rest total_value contributed_fee
        | .setFee cf => ctx.check_outputs_go rest orig_rest total_value cf
        | .stay =>
          ctx.check_outputs_go rest
            ((original_output_index, original_output) :: orig_rest) total_value contributed_fee
        | .fail e => .error e

/-- `check_outputs` (`sender/mod.rs`).  NOTE embedded faithfully from the
source: the cursor variable named `original_outputs` is initialized from
`proposal.global.unsigned_tx.output.iter().enumerate()` (line 257) — the
PROPOSAL's own outputs — not from the original PSBT's outputs. -/
def Context.check_outputs (ctx : Context) (proposal : Psbt) :
    Except ValidationError OutputStats :=
  ctx.check_outputs_go (proposal.tx.output.zip proposal.outputs)
    proposal.tx.output.enum 0 0

/-- `check_fees` (`sender/mod.rs`): no inflation, absolute fee not
decreased, contributed fee not taken by the payee, and the contributed fee
bounded by original-fee-rate × expected input weight × number of added
inputs, where the fee rate is the integer division
`original_fee / original_weight` (performed before the multiplication) and
the added-input count is the `usize` difference
`proposal.inputs.len() - original_psbt.inputs.len()` (embedded as
truncated `Nat` subtraction). -/
def Context.check_fees (ctx : Context) (proposal : Psbt)
    (in_stats : InputStats) (out_stats : OutputStats) :
    Except ValidationError Unit :=
  if in_stats.total_value < out_stats.total_value then .error .Inflation
  else
    -- the source binds proposed_psbt_fee = in - out, original_weight and
    -- original_fee_rate = original_fee / original_weight; they are inlined here
    match calculate_psbt_fee ctx.original_psbt with
    | .error e => .error e
    | .ok original_fee =>
      if ¬(original_fee ≤ in_stats.total_value - out_stats.total_value) then
        .error .AbsoluteFeeDecreased
      else if ¬(out_stats.contributed_fee ≤
          (in_stats.total_value - out_stats.total_value) - original_fee) then
        .error .PayeeTookContributedFee
      else if ¬(out_stats.contributed_fee ≤
          original_fee / ctx.original_psbt.tx.weight *
            ctx.input_type.expected_input_weight *
            (proposal.inputs.length - ctx.original_psbt.inputs.length)) then
        .error .FeeContributionPaysOutputSizeIncrease
      else .ok ()

/-- `process_proposal` (`sender/mod.rs`): basic checks, input checks,
output checks, fee checks, in that order; returns the proposal on
success. -/
def Context.process_proposal (ctx : Context) (proposal : Psbt) :
    Except ValidationError Psbt :=
  match ctx.basic_checks proposal with
  | .error e => .error e
  | .ok _ =>
    match ctx.check_inputs proposal with
    | .error e => .error e
    | .ok in_stats =>
      match ctx.check_outputs proposal with
      | .error e => .error e
      | .ok out_stats =>
        match ctx.check_fees proposal in_stats out_stats with
        | .error e => .error e
        | .ok _ => .ok proposal

/-! ## Receiver request intake (`src/bip78/src/receiver/mod.rs`) -/

/-- The receiver request error type (`RequestError` /
`InternalRequestError`, crate module `receiver/error.rs`; the variants are
those raised by `from_request` and listed in spec §7). -/
inductive RequestError where
  | MissingHeader (h : String)
  | InvalidContentType (s : String)
  | InvalidContentLength
  | ContentLengthTooLarge (l : Nat)
  | Decode
deriving DecidableEq, Repr

/-- The `Headers` trait's `get_header` (`receiver/mod.rs`), on a header
map embedded as an association list. -/
def get_header (headers : List (String × String)) (key : String) :
    Option String :=
  (headers.find? fun h => h.1 = key).map Prod.snd

/-- Rust's `str::parse::<u64>()`: an optional leading `+`, then one or
more ASCII digits; the value must fit in 64 bits. -/
def parse_u64 (s : String) : Option Nat :=
  let chars := s.data
  let digits := match chars with
    | '+' :: rest => rest
    | _ => chars
  if digits.isEmpty then none
  else if digits.all Char.isDigit then
    let v := digits.foldl (fun acc c => acc * 10 + (c.toNat - 48)) 0
    if v < 2 ^ 64 then some v else none
  else none

/-- `UncheckedProposal::from_request` (`receiver/mod.rs`): the
`content-type` header must be present and equal `text/plain`; the
`content-length` header must be present and parse as a `u64`; the length
must not exceed `4_000_000 * 4 / 3`; only then is the body — limited to
`content_length` bytes by `body.take(content_length)` — decoded.

`decode` stands for the external base64 reader plus
`PartiallySignedTransaction::consensus_decode` (both out-of-scope
collaborators per spec §1); the source's final wrap into the count-checked
PSBT view (`Psbt::try_from(psbt).expect(..)`) is elided, the claims being
about the header/length contract. -/
def from_request (decode : List Nat → Option Psbt) (body : List Nat)
    (headers : List (String × String)) : Except RequestError Psbt :=
  match get_header headers "content-type" with
  | none => .error (.MissingHeader "Content-Type")
  | some content_type =>
    if content_type ≠ "text/plain" then .error (.InvalidContentType content_type)
    else
      match get_header headers "content-length" with
      | none => .error (.MissingHeader "Content-Length")
      | some cl_str =>
        match parse_u64 cl_str with
        | none => .error .InvalidContentLength
        | some content_length =>
          if content_length > 4000000 * 4 / 3 then
            .error (.ContentLengthTooLarge content_length)
          else
            match decode (body.take content_length) with
            | some psbt => .ok psbt
            | none => .error .Decode

/-! ## Receiver intake state machine (`src/bip78/src/state.rs`) -/

/-- The error type of the phase transitions (`PsbtError`, `state.rs`). -/
inductive PsbtError where
  | UnequalInputCounts (tx_ins psbt_ins : Nat)
  | UnequalOutputCounts (tx_outs psbt_outs : Nat)
  | Todo
deriving DecidableEq, Repr

/-- Phase tag `Validated` (`state.rs`): count-checked, no guard flag. -/
structure Validated where
deriving DecidableEq, Repr

/-- Phase tag `MaybeUnbroadcastable` (`state.rs`) with its guard flag;
`Default::default()` leaves the flag `false`. -/
structure MaybeUnbroadcastable where
  is_broadcastable : Bool
deriving DecidableEq, Repr

/-- Phase tag `MaybeInputsOwned` (`state.rs`) with its guard flag. -/
structure MaybeInputsOwned where
  are_previous_script_pubkey_not_mine : Bool
deriving DecidableEq, Repr

/-- Phase tag `MaybePrevoutsSeen` (`state.rs`) with its guard flag. -/
structure MaybePrevoutsSeen where
  are_prevouts_never_seen : Bool
deriving DecidableEq, Repr

/-- Terminal phase tag `Proposal` (`state.rs`). -/
structure ProposalPhase where
deriving DecidableEq, Repr

/-- `PsbtState<S>` (`state.rs`): a PSBT tagged with its current phase
value. -/
structure PsbtState (S : Type) where
  psbt : Psbt
  state : S
deriving DecidableEq, Repr

/-- `TryFrom<PartiallySignedTransaction> for PsbtState<Validated>`
(`state.rs`): the unsigned transaction's input and output counts must
equal the PSBT's record counts. -/
def tryFrom_validated (psbt : Psbt) : Except PsbtError (PsbtState Validated) :=
  if psbt.inputs.length ≠ psbt.tx.input.length then
    .error (.UnequalInputCounts psbt.tx.input.length psbt.inputs.length)
  else if psbt.outputs.length ≠ psbt.tx.output.length then
    .error (.UnequalOutputCounts psbt.tx.output.length psbt.outputs.length)
  else .ok ⟨psbt, ⟨⟩⟩

/-- `From<PsbtState<Validated>> for PsbtState<MaybeUnbroadcastable>`
(`state.rs`): infallible, guard flag starts at its default `false`. -/
def from_validated (v : PsbtState Validated) : PsbtState MaybeUnbroadcastable :=
  ⟨v.psbt, ⟨false⟩⟩

/-- `TryNext<MaybeInputsOwned> for PsbtState<MaybeUnbroadcastable>`
(`state.rs`, via the `TryFrom` impl): succeeds, carrying the same PSBT and
a default (`false`) next-phase flag, exactly when `is_broadcastable` is
set; otherwise `PsbtError::Todo`. -/
def try_next_unbroadcastable (v : PsbtState MaybeUnbroadcastable) :
    Except PsbtError (PsbtState MaybeInputsOwned) :=
  if v.state.is_broadcastable then .ok ⟨v.psbt, ⟨false⟩⟩ else .error .Todo

/-- `TryNext<MaybePrevoutsSeen> for PsbtState<MaybeInputsOwned>`
(`state.rs`): gated on `are_previous_script_pubkey_not_mine`. -/
def try_next_inputs_owned (v : PsbtState MaybeInputsOwned) :
    Except PsbtError (PsbtState MaybePrevoutsSeen) :=
  if v.state.are_previous_script_pubkey_not_mine then .ok ⟨v.psbt, ⟨false⟩⟩
  else .error .Todo

/-- `TryNext<Proposal> for PsbtState<MaybePrevoutsSeen>` (`state.rs`):
gated on `are_prevouts_never_seen`. -/
def try_next_prevouts_seen (v : PsbtState MaybePrevoutsSeen) :
    Except PsbtError (PsbtState ProposalPhase) :=
  if v.state.are_prevouts_never_seen then .ok ⟨v.psbt, ⟨⟩⟩ else .error .Todo

/-- `PsbtState::<MaybeInputsOwned>::script_pubkeys` (`state.rs` lines
151–155), embedded exactly as written: it maps each input of the unsigned
transaction to its `script_sig` field. -/
def PsbtState.script_pubkeys (s : PsbtState MaybeInputsOwned) : List Script :=
  s.psbt.tx.input.map fun e => e.script_sig

/-- The receiver intake pipeline as exercised by the crate's own
`test_state` test: decode-validate, step into `MaybeUnbroadcastable`, and
before each `try_next` the caller sets the phase's guard flag to its
assertion (`b1`, `b2`, `b3`). -/
def intake_pipeline (psbt : Psbt) (b1 b2 b3 : Bool) :
    Except PsbtError (PsbtState ProposalPhase) :=
  match tryFrom_validated psbt with
  | .error e => .error e
  | .ok v =>
    let mu : PsbtState MaybeUnbroadcastable := ⟨(from_validated v).psbt, ⟨b1⟩⟩
    match try_next_unbroadcastable mu with
    | .error e => .error e
    | .ok mi =>
      let mi : PsbtState MaybeInputsOwned := ⟨mi.psbt, ⟨b2⟩⟩
      match try_next_inputs_owned mi with
      | .error e => .error e
      | .ok mp =>
        let mp : PsbtState MaybePrevoutsSeen := ⟨mp.psbt, ⟨b3⟩⟩
        try_next_prevouts_seen mp

/-! ## Concrete sample data

`ctxA`/`proposalA`: a sender context with output substitution disabled whose
counter-proposal lowers the payee output by one satoshi.  `ctxB`/`proposalB`:
a context with a 100-satoshi fee-contribution cap at output index 0 whose
counter-proposal lowers that output by 200 satoshis. -/

/-- Payee scriptPubKey of the samples. -/
def payeeScript : Script := ⟨.p2sh, [1]⟩

/-- Change scriptPubKey of the samples. -/
def changeScript : Script := ⟨.p2sh, [2]⟩

/-- Funding-prevout scriptPubKey of the samples (P2SH). -/
def prevoutScript : Script := ⟨.p2sh, [3]⟩

/-- An empty script_sig. -/
def emptyScript : Script := ⟨.other, []⟩

/-- A P2WPKH redeem script, making the sample input nested SegWitV0. -/
def redeemP2wpkh : Script := ⟨.p2wpkh, [4]⟩

/-- The outpoint spent by the samples' zeroth input. -/
def outpoint0 : OutPoint := ⟨1, 0⟩

/-- The original PSBT's input record: a 2000-satoshi witness UTXO behind
`prevoutScript` with a P2WPKH redeem script. -/
def origInputRecord : PsbtInput :=
  { PsbtInput.empty with
    witness_utxo := some ⟨2000, prevoutScript⟩
    redeem_script := some redeemP2wpkh }

/-- Original PSBT of scenario A: one 2000-satoshi input, one payee output
of 1000 satoshis. -/
def origPsbtA : Psbt :=
  { tx := { version := 2, lock_time := 0, input := [⟨outpoint0, emptyScript, 5⟩],
            output := [⟨1000, payeeScript⟩], weight := 400 }
    global := ⟨[], [], []⟩
    inputs := [origInputRecord]
    outputs := [PsbtOutput.empty] }

/-- Context of scenario A: output substitution disabled, no fee
contribution. -/
def ctxA : Context :=
  { original_psbt := origPsbtA
    disable_output_substitution := true
    fee_contribution := none
    input_type := .SegWitV0 .pubkey true
    sequence := 5
    payee := payeeScript }

/-- Proposal of scenario A: the sender input unchanged, the payee output
lowered from 1000 to 999 satoshis. -/
def proposalA : Psbt :=
  { tx := { version := 2, lock_time := 0, input := [⟨outpoint0, emptyScript, 5⟩],
            output := [⟨999, payeeScript⟩], weight := 400 }
    global := ⟨[], [], []⟩
    inputs := [PsbtInput.empty]
    outputs := [PsbtOutput.empty] }

/-- Original PSBT of scenario B: one 2000-satoshi input, a 1000-satoshi
change output at index 0 and a 500-satoshi payee output at index 1. -/
def origPsbtB : Psbt :=
  { tx := { version := 2, lock_time := 0, input := [⟨outpoint0, emptyScript, 5⟩],
            output := [⟨1000, changeScript⟩, ⟨500, payeeScript⟩], weight := 400 }
    global := ⟨[], [], []⟩
    inputs := [origInputRecord]
    outputs := [PsbtOutput.empty, PsbtOutput.empty] }

/-- Context of scenario B: a fee contribution of at most 100 satoshis from
output index 0. -/
def ctxB : Context :=
  { original_psbt := origPsbtB
    disable_output_substitution := false
    fee_contribution := some (100, 0)
    input_type := .SegWitV0 .pubkey true
    sequence := 5
    payee := payeeScript }

/-- Proposal of scenario B: the fee output lowered from 1000 to 800
satoshis — a 200-satoshi reduction against a 100-satoshi cap. -/
def proposalB : Psbt :=
  { tx := { version := 2, lock_time := 0, input := [⟨outpoint0, emptyScript, 5⟩],
            output := [⟨800, changeScript⟩, ⟨500, payeeScript⟩], weight := 400 }
    global := ⟨[], [], []⟩
    inputs := [PsbtInput.empty]
    outputs := [PsbtOutput.empty, PsbtOutput.empty] }

/-- A PSBT with equal (empty) input and output counts, used to drive the
receiver intake pipeline. -/
def psbtE : Psbt :=
  { tx := { version := 2, lock_time := 0, input := [], output := [], weight := 100 }
    global := ⟨[], [], []⟩
    inputs := []
    outputs := [] }

/-- A PSBT carrying xpub/proprietary/unknown and bip32 junk in every scope,
used to exercise the sanitizer. -/
def psbtD : Psbt :=
  { tx := { version := 2, lock_time := 0, input := [⟨outpoint0, emptyScript, 5⟩],
            output := [⟨1000, payeeScript⟩], weight := 400 }
    global := ⟨[1], [2], [3]⟩
    inputs := [{ origInputRecord with bip32_derivation := [7], proprietary := [8], unknown := [9] }]
    outputs := [⟨[4], [5], [6]⟩] }

/-- The script_sig carried by the C8 sample's input. -/
def scriptSigC8 : Script := ⟨.other, [170]⟩

/-- The funding prevout's scriptPubKey of the C8 sample's input. -/
def prevSpkC8 : Script := ⟨.p2wpkh, [187]⟩

/-- A PSBT whose single input has `script_sig = scriptSigC8` while its
funding prevout pays to `prevSpkC8`. -/
def psbtC8 : Psbt :=
  { tx := { version := 2, lock_time := 0, input := [⟨⟨9, 0⟩, scriptSigC8, 1⟩],
            output := [], weight := 100 }
    global := ⟨[], [], []⟩
    inputs := [{ PsbtInput.empty with witness_utxo := some ⟨1234, prevSpkC8⟩ }]
    outputs := [] }

/-- The C8 sample lifted into the `MaybeInputsOwned` phase. -/
def stateC8 : PsbtState MaybeInputsOwned := ⟨psbtC8, ⟨false⟩⟩

/-! ## Claim theorems -/

/-- C1: the claim says that with `disable_output_substitution = true` a
proposal whose payee output has a lower value than the original payee
output is rejected with `DisallowedOutputSubstitution`, the output walk
comparing proposed outputs against a cursor over the ORIGINAL
transaction's outputs.  The code instead builds the cursor from the
proposal's own outputs (`sender/mod.rs` line 257), so each proposed output
is compared with itself: here the payee output is lowered by one satoshi
under `disable_output_substitution = true`, and `process_proposal`
accepts. -/
theorem C1_payee_decrease_accepted :
    ctxA.disable_output_substitution = true ∧
    ctxA.payee = payeeScript ∧
    ctxA.original_psbt.tx.output = [⟨1000, payeeScript⟩] ∧
    proposalA.tx.output = [⟨999, payeeScript⟩] ∧
    ctxA.process_proposal proposalA = .ok proposalA :=
  ⟨rfl, rfl, rfl, rfl, rfl⟩

/-- C2: the claim says that with `fee_contribution = some (100, 0)` a
proposal lowering the output at the fee index by 200 satoshis is rejected
with `FeeContributionExceedsMaximum`.  Because the output cursor is built
from the proposal's own outputs (`sender/mod.rs` line 257), the comparison
`proposed.value < original.value` is a self-comparison and never holds:
the 200-satoshi reduction is accepted, with a recorded contributed fee of
0. -/
theorem C2_contribution_over_cap_accepted :
    ctxB.fee_contribution = some (100, 0) ∧
    ctxB.original_psbt.tx.output = [⟨1000, changeScript⟩, ⟨500, payeeScript⟩] ∧
    proposalB.tx.output = [⟨800, changeScript⟩, ⟨500, payeeScript⟩] ∧
    ctxB.check_outputs proposalB = .ok ⟨1300, 0⟩ ∧
    ctxB.process_proposal proposalB = .ok proposalB :=
  ⟨rfl, rfl, rfl, rfl, rfl⟩

/-- C8: the claim says `script_pubkeys()` on the `MaybeInputsOwned` phase
yields each input's funding-prevout scriptPubKey.  The code
(`state.rs` line 153) maps each transaction input to its `script_sig`
field instead: on a PSBT whose input has script_sig `scriptSigC8` and
funding prevout scriptPubKey `prevSpkC8`, it returns the script_sig, which
differs from the prevout's scriptPubKey. -/
theorem C8_script_pubkeys_yield_script_sig :
    stateC8.script_pubkeys = [scriptSigC8] ∧
    psbtC8.input_pairs.map InputPair.previous_txout = [some ⟨1234, prevSpkC8⟩] ∧
    scriptSigC8 ≠ prevSpkC8 :=
  ⟨rfl, rfl, by decide⟩

/-- C9: the sender sanitization `clear_unneeded_fields` is idempotent, and
after one application the global xpub, proprietary and unknown maps and
every per-input and per-output bip32_derivation, proprietary and unknown
map are empty. -/
theorem C9_sanitization_idempotent (p : Psbt) :
    clear_unneeded_fields (clear_unneeded_fields p) = clear_unneeded_fields p ∧
    (clear_unneeded_fields p).global.xpub = [] ∧
    (clear_unneeded_fields p).global.proprietary = [] ∧
    (clear_unneeded_fields p).global.unknown = [] ∧
    (∀ i ∈ (clear_unneeded_fields p).inputs,
      i.bip32_derivation = [] ∧ i.proprietary = [] ∧ i.unknown = []) ∧
    (∀ o ∈ (clear_unneeded_fields p).outputs,
      o.bip32_derivation = [] ∧ o.proprietary = [] ∧ o.unknown = []) := by
  refine ⟨?_, rfl, rfl, rfl, ?_, ?_⟩
  · unfold clear_unneeded_fields
    simp only [List.map_map]
    rfl
  · intro i hi
    unfold clear_unneeded_fields at hi
    simp only [List.mem_map] at hi
    obtain ⟨a, -, rfl⟩ := hi
    exact ⟨rfl, rfl, rfl⟩
  · intro o ho
    unfold clear_unneeded_fields at ho
    simp only [List.mem_map] at ho
    obtain ⟨a, -, rfl⟩ := ho
    exact ⟨rfl, rfl, rfl⟩

/-- C9 witness: the sanitizer applied to the concrete junk-carrying PSBT
`psbtD`. -/
theorem C9_witness :
    clear_unneeded_fields (clear_unneeded_fields psbtD) = clear_unneeded_fields psbtD ∧
    (clear_unneeded_fields psbtD).global.xpub = [] :=
  ⟨(C9_sanitization_idempotent psbtD).1, (C9_sanitization_idempotent psbtD).2.1⟩

/-- Helper: a successful `tryFrom_validated` carries the PSBT through. -/
lemma tryFrom_validated_psbt {psbt : Psbt} {v : PsbtState Validated}
    (h : tryFrom_validated psbt = .ok v) : v.psbt = psbt := by
  unfold tryFrom_validated at h
  split at h
  · exact absurd h (by simp)
  · split at h
    · exact absurd h (by simp)
    · injection h with h
      rw [← h]

/-- C6: each receiver phase transition succeeds — returning the next phase
with the same PSBT and a default (`false`) flag — exactly when its guard
flag (`is_broadcastable`, `are_previous_script_pubkey_not_mine`,
`are_prevouts_never_seen`) is set, and returns the typed error
`PsbtError.Todo` when the flag is unset; consequently the intake pipeline
reaches a `Proposal`-phase value only when every guard flag was set along
the way, and then it carries the decoded PSBT. -/
theorem C6_phase_guards :
    (∀ v : PsbtState MaybeUnbroadcastable,
      (try_next_unbroadcastable v = .ok ⟨v.psbt, ⟨false⟩⟩ ↔
        v.state.is_broadcastable = true) ∧
      (v.state.is_broadcastable = false → try_next_unbroadcastable v = .error .Todo)) ∧
    (∀ v : PsbtState MaybeInputsOwned,
      (try_next_inputs_owned v = .ok ⟨v.psbt, ⟨false⟩⟩ ↔
        v.state.are_previous_script_pubkey_not_mine = true) ∧
      (v.state.are_previous_script_pubkey_not_mine = false →
        try_next_inputs_owned v = .error .Todo)) ∧
    (∀ v : PsbtState MaybePrevoutsSeen,
      (try_next_prevouts_seen v = .ok ⟨v.psbt, ⟨⟩⟩ ↔
        v.state.are_prevouts_never_seen = true) ∧
      (v.state.are_prevouts_never_seen = false →
        try_next_prevouts_seen v = .error .Todo)) ∧
    (∀ (psbt : Psbt) (b1 b2 b3 : Bool) (t : PsbtState ProposalPhase),
      intake_pipeline psbt b1 b2 b3 = .ok t →
      b1 = true ∧ b2 = true ∧ b3 = true ∧ t.psbt = psbt) := by
  refine ⟨?_, ?_, ?_, ?_⟩
  · intro v
    constructor
    · cases hb : v.state.is_broadcastable <;> simp [try_next_unbroadcastable, hb]
    · intro h; simp [try_next_unbroadcastable, h]
  · intro v
    constructor
    · cases hb : v.state.are_previous_script_pubkey_not_mine <;>
        simp [try_next_inputs_owned, hb]
    · intro h; simp [try_next_inputs_owned, h]
  · intro v
    constructor
    · cases hb : v.state.are_prevouts_never_seen <;>
        simp [try_next_prevouts_seen, hb]
    · intro h; simp [try_next_prevouts_seen, h]
  · intro psbt b1 b2 b3 t h
    unfold intake_pipeline at h
    cases hv : tryFrom_validated psbt with
    | error e => rw [hv] at h; exact absurd h (by simp)
    | ok v =>
      rw [hv] at h
      cases b1 with
      | false => simp [try_next_unbroadcastable] at h
      | true =>
        simp only [try_next_unbroadcastable, if_true] at h
        cases b2 with
        | false => simp [try_next_inputs_owned] at h
        | true =>
          simp only [try_next_inputs_owned, if_true] at h
          cases b3 with
          | false => simp [try_next_prevouts_seen] at h
          | true =>
            simp only [try_next_prevouts_seen, if_true] at h
            injection h with h
            refine ⟨rfl, rfl, rfl, ?_⟩
            rw [← h]
            exact congrArg PsbtState.psbt (rfl : (⟨(from_validated v).psbt, ⟨⟩⟩ : PsbtState ProposalPhase) = _) |>.trans (tryFrom_validated_psbt hv)

/-- C6 witness: the transitions evaluated at concrete states built over
`psbtE`, and the pipeline with all three assertions made. -/
theorem C6_witness :
    try_next_unbroadcastable ⟨psbtE, ⟨true⟩⟩ = .ok ⟨psbtE, ⟨false⟩⟩ ∧
    try_next_unbroadcastable ⟨psbtE, ⟨false⟩⟩ = .error .Todo ∧
    try_next_inputs_owned ⟨psbtE, ⟨false⟩⟩ = .error .Todo ∧
    try_next_prevouts_seen ⟨psbtE, ⟨false⟩⟩ = .error .Todo ∧
    (⟨psbtE, ⟨⟩⟩ : PsbtState ProposalPhase).psbt = psbtE :=
  ⟨(C6_phase_guards.1 ⟨psbtE, ⟨true⟩⟩).1.mpr rfl,
   (C6_phase_guards.1 ⟨psbtE, ⟨false⟩⟩).2 rfl,
   (C6_phase_guards.2.1 ⟨psbtE, ⟨false⟩⟩).2 rfl,
   (C6_phase_guards.2.2.1 ⟨psbtE, ⟨false⟩⟩).2 rfl,
   (C6_phase_guards.2.2.2 psbtE true true true ⟨psbtE, ⟨⟩⟩ rfl).2.2.2⟩

/-- C7: `from_request` rejects — for every decoder, i.e. before any
decoding — with `MissingHeader` when the content-type or content-length
header is absent, `InvalidContentType` for any content-type other than
`text/plain`, `InvalidContentLength` when content-length does not parse as
an unsigned 64-bit integer, and `ContentLengthTooLarge` when it exceeds
`4_000_000 * 4 / 3 = 5_333_333`; and when all checks pass the decoder is
applied to exactly the first `content_length` bytes of the body. -/
theorem C7_from_request_contract :
    (∀ (decode : List Nat → Option Psbt) (body : List Nat)
        (headers : List (String × String)),
      get_header headers "content-type" = none →
      from_request decode body headers = .error (.MissingHeader "Content-Type")) ∧
    (∀ decode body headers s,
      get_header headers "content-type" = some s → s ≠ "text/plain" →
      from_request decode body headers = .error (.InvalidContentType s)) ∧
    (∀ decode body headers,
      get_header headers "content-type" = some "text/plain" →
      get_header headers "content-length" = none →
      from_request decode body headers = .error (.MissingHeader "Content-Length")) ∧
    (∀ decode body headers s,
      get_header headers "content-type" = some "text/plain" →
      get_header headers "content-length" = some s → parse_u64 s = none →
      from_request decode body headers = .error .InvalidContentLength) ∧
    (∀ decode body headers s n,
      get_header headers "content-type" = some "text/plain" →
      get_header headers "content-length" = some s → parse_u64 s = some n →
      4000000 * 4 / 3 < n →
      from_request decode body headers = .error (.ContentLengthTooLarge n)) ∧
    (4000000 * 4 / 3 = 5333333) ∧
    (∀ decode body headers s n,
      get_header headers "content-type" = some "text/plain" →
      get_header headers "content-length" = some s → parse_u64 s = some n →
      n ≤ 4000000 * 4 / 3 →
      from_request decode body headers =
        match decode (body.take n) with
        | some psbt => .ok psbt
        | none => .error .Decode) := by
  refine ⟨?_, ?_, ?_, ?_, ?_, by decide, ?_⟩
  · intro decode body headers h
    unfold from_request
    rw [h]
  · intro decode body headers s h hs
    unfold from_request
    rw [h]
    simp [hs]
  · intro decode body headers h1 h2
    unfold from_request
    rw [h1]
    simp [h2]
  · intro decode body headers s h1 h2 h3
    unfold from_request
    rw [h1]
    simp [h2, h3]
  · intro decode body headers s n h1 h2 h3 h4
    unfold from_request
    rw [h1]
    simp [h2, h3, h4, Nat.not_le.mpr h4]
  · intro decode body headers s n h1 h2 h3 h4
    unfold from_request
    rw [h1]
    simp [h2, h3, Nat.not_lt.mpr h4]

/-- C7 witness: the contract evaluated at concrete headers and bodies. -/
theorem C7_witness :
    from_request (fun _ => none) [0] [] = .error (.MissingHeader "Content-Type") ∧
    from_request (fun _ => none) [0] [("content-type", "text/html")] =
      .error (.InvalidContentType "text/html") ∧
    from_request (fun _ => none) [0] [("content-type", "text/plain")] =
      .error (.MissingHeader "Content-Length") ∧
    from_request (fun _ => none) [0]
      [("content-type", "text/plain"), ("content-length", "xyz")] =
      .error .InvalidContentLength ∧
    from_request (fun _ => none) [0]
      [("content-type", "text/plain"), ("content-length", "5333334")] =
      .error (.ContentLengthTooLarge 5333334) ∧
    from_request (fun _ => none) [0]
      [("content-type", "text/plain"), ("content-length", "3")] = .error .Decode :=
  ⟨C7_from_request_contract.1 _ [0] [] rfl,
   C7_from_request_contract.2.1 _ [0] _ "text/html" rfl (by decide),
   C7_from_request_contract.2.2.1 _ [0] _ rfl rfl,
   C7_from_request_contract.2.2.2.1 _ [0] _ "xyz" rfl rfl rfl,
   C7_from_request_contract.2.2.2.2.1 _ [0] _ "5333334" 5333334 rfl rfl rfl (by decide),
   (C7_from_request_contract.2.2.2.2.2.2 (fun _ => none) [0]
      [("content-type", "text/plain"), ("content-length", "3")] "3" 3
      rfl rfl rfl (by decide)).trans rfl⟩

/-- The observable of an input the input walk pins down for matched
original inputs: its outpoint and its sequence number. -/
def inputKey (ip : InputPair) : OutPoint × Nat :=
  (ip.txin.previous_output, ip.txin.sequence)

/-- Helper: a successful input walk embeds the remaining original cursor,
keyed by (outpoint, sequence), as a sublist of the proposed inputs. -/
lemma check_inputs_go_sublist (ctx : Context) (proposed : List InputPair) :
    ∀ (origs : List InputPair) (acc : Nat) (s : InputStats),
      ctx.check_inputs_go proposed origs acc = .ok s →
      (origs.map inputKey).Sublist (proposed.map inputKey) := by
  induction proposed with
  | nil =>
    intro origs acc s h
    cases origs with
    | nil => simp
    | cons a l =>
      unfold Context.check_inputs_go at h
      exact absurd h (by simp)
  | cons proposed rest ih =>
    intro origs acc s h
    unfold Context.check_inputs_go at h
    by_cases h1 : ¬proposed.psbtin.bip32_derivation.isEmpty
    · rw [if_pos h1] at h; exact absurd h (by simp)
    · rw [if_neg h1] at h
      by_cases h2 : ¬proposed.psbtin.partial_sigs.isEmpty
      · rw [if_pos h2] at h; exact absurd h (by simp)
      · rw [if_neg h2] at h
        cases origs with
        | nil =>
          simp only [List.map_nil]
          exact List.nil_sublist _
        | cons original orig_rest =>
          dsimp only at h
          by_cases hp : proposed.txin.previous_output = original.txin.previous_output
          · rw [if_pos hp] at h
            by_cases hq1 : proposed.txin.sequence ≠ original.txin.sequence
            · rw [if_pos hq1] at h; exact absurd h (by simp)
            · rw [if_neg hq1] at h
              push_neg at hq1
              by_cases hq2 : proposed.psbtin.non_witness_utxo.isSome
              · rw [if_pos hq2] at h; exact absurd h (by simp)
              · rw [if_neg hq2] at h
                by_cases hq3 : proposed.psbtin.witness_utxo.isSome
                · rw [if_pos hq3] at h; exact absurd h (by simp)
                · rw [if_neg hq3] at h
                  by_cases hq4 : proposed.psbtin.final_script_sig.isSome
                  · rw [if_pos hq4] at h; exact absurd h (by simp)
                  · rw [if_neg hq4] at h
                    by_cases hq5 : proposed.psbtin.final_script_witness.isSome
                    · rw [if_pos hq5] at h; exact absurd h (by simp)
                    · rw [if_neg hq5] at h
                      cases hpt : original.previous_txout with
                      | none => rw [hpt] at h; exact absurd h (by simp)
                      | some prevout =>
                        rw [hpt] at h
                        have hsub := ih _ _ _ h
                        have hkey : inputKey original = inputKey proposed := by
                          unfold inputKey
                          rw [hp, hq1]
                        simp only [List.map_cons, hkey]
                        exact hsub.cons₂ _
          · rw [if_neg hp] at h
            cases hr : ctx.check_receiver_input proposed with
            | error e => rw [hr] at h; exact absurd h (by simp)
            | ok v =>
              rw [hr] at h
              have hsub := ih _ _ _ h
              simp only [List.map_cons]
              exact hsub.cons _

/-- Helper: when the proposed inputs are exhausted but the original cursor
is not, the input walk fails with `MissingOrShuffledInputs`. -/
lemma check_inputs_go_not_exhausted (ctx : Context) (origs : List InputPair)
    (acc : Nat) (h : origs ≠ []) :
    ctx.check_inputs_go [] origs acc = .error .MissingOrShuffledInputs := by
  cases origs with
  | nil => exact absurd rfl h
  | cons a l => rfl

/-- Helper: a successful `process_proposal` decomposes into successful
input, output and fee checks, and returns the proposal itself. -/
lemma process_proposal_parts {ctx : Context} {proposal q : Psbt}
    (h : ctx.process_proposal proposal = .ok q) :
    q = proposal ∧ ∃ in_stats out_stats,
      ctx.check_inputs proposal = .ok in_stats ∧
      ctx.check_outputs proposal = .ok out_stats ∧
      ctx.check_fees proposal in_stats out_stats = .ok () := by
  unfold Context.process_proposal at h
  cases hb : ctx.basic_checks proposal with
  | error e => rw [hb] at h; simp at h
  | ok u =>
    rw [hb] at h
    dsimp only at h
    cases hi : ctx.check_inputs proposal with
    | error e => rw [hi] at h; simp at h
    | ok iS =>
      rw [hi] at h
      dsimp only at h
      cases ho : ctx.check_outputs proposal with
      | error e => rw [ho] at h; simp at h
      | ok oS =>
        rw [ho] at h
        dsimp only at h
        cases hf : ctx.check_fees proposal iS oS with
        | error e => rw [hf] at h; simp at h
        | ok u2 =>
          rw [hf] at h
          dsimp only at h
          injection h with h
          cases u2
          exact ⟨h.symm, iS, oS, rfl, rfl, hf⟩

/-- Helper: what a successful `check_fees` guarantees. -/
lemma check_fees_ok {ctx : Context} {proposal : Psbt}
    {in_stats : InputStats} {out_stats : OutputStats}
    (h : ctx.check_fees proposal in_stats out_stats = .ok ()) :
    ∃ original_fee,
      calculate_psbt_fee ctx.original_psbt = .ok original_fee ∧
      out_stats.total_value ≤ in_stats.total_value ∧
      original_fee ≤ in_stats.total_value - out_stats.total_value ∧
      out_stats.contributed_fee ≤
        (in_stats.total_value - out_stats.total_value) - original_fee ∧
      out_stats.contributed_fee ≤
        original_fee / ctx.original_psbt.tx.weight *
          ctx.input_type.expected_input_weight *
          (proposal.inputs.length - ctx.original_psbt.inputs.length) := by
  unfold Context.check_fees at h
  by_cases h1 : in_stats.total_value < out_stats.total_value
  · rw [if_pos h1] at h; simp at h
  · rw [if_neg h1] at h
    cases hc : calculate_psbt_fee ctx.original_psbt with
    | error e => rw [hc] at h; simp at h
    | ok original_fee =>
      rw [hc] at h
      dsimp only at h
      by_cases h2 : ¬(original_fee ≤ in_stats.total_value - out_stats.total_value)
      · rw [if_pos h2] at h; simp at h
      · rw [if_neg h2] at h
        by_cases h3 : ¬(out_stats.contributed_fee ≤
            (in_stats.total_value - out_stats.total_value) - original_fee)
        · rw [if_pos h3] at h; simp at h
        · rw [if_neg h3] at h
          by_cases h4 : ¬(out_stats.contributed_fee ≤
              original_fee / ctx.original_psbt.tx.weight *
                ctx.input_type.expected_input_weight *
                (proposal.inputs.length - ctx.original_psbt.inputs.length))
          · rw [if_pos h4] at h; simp at h
          · push_neg at h1 h2 h3 h4
            exact ⟨original_fee, rfl, h1, h2, h3, h4⟩

/-- Helper: what a successful `calculate_psbt_fee` computes: the sum of
the prevout values resolved, it dominates the output-value sum, and the
fee is their difference. -/
lemma calculate_psbt_fee_ok {psbt : Psbt} {f : Nat}
    (h : calculate_psbt_fee psbt = .ok f) :
    ∃ total_inputs,
      sum_prevout_values psbt.input_pairs = .ok total_inputs ∧
      (psbt.tx.output.map TxOut.value).sum ≤ total_inputs ∧
      f = total_inputs - (psbt.tx.output.map TxOut.value).sum := by
  unfold calculate_psbt_fee at h
  cases hs : sum_prevout_values psbt.input_pairs with
  | error e => rw [hs] at h; simp at h
  | ok total_inputs =>
    rw [hs] at h
    dsimp only at h
    by_cases hlt : total_inputs < (psbt.tx.output.map TxOut.value).sum
    · rw [if_pos hlt] at h; simp at h
    · rw [if_neg hlt] at h
      injection h with h
      push_neg at hlt
      exact ⟨total_inputs, rfl, hlt, h.symm⟩

/-- Helper: the length of `input_pairs` when the PSBT's record count
matches its transaction's input count. -/
lemma input_pairs_length (p : Psbt) (h : p.tx.input.length = p.inputs.length) :
    p.input_pairs.length = p.inputs.length := by
  simp [Psbt.input_pairs, h]

/-- C3: for every proposal accepted by `process_proposal`, the original
PSBT's inputs — keyed by outpoint alone, and by (outpoint, sequence),
which shows each matched original input keeps its sequence number — form
a sublist (a subsequence in identical relative order) of the proposal's
inputs; and when the proposed inputs are exhausted while the original
cursor is not, the walk fails with `MissingOrShuffledInputs`. -/
theorem C3_input_preservation :
    (∀ (ctx : Context) (proposal q : Psbt),
      ctx.process_proposal proposal = .ok q →
      ((ctx.original_psbt.input_pairs.map fun ip => ip.txin.previous_output).Sublist
        (proposal.input_pairs.map fun ip => ip.txin.previous_output) ∧
       (ctx.original_psbt.input_pairs.map inputKey).Sublist
        (proposal.input_pairs.map inputKey))) ∧
    (∀ (ctx : Context) (origs : List InputPair) (acc : Nat), origs ≠ [] →
      ctx.check_inputs_go [] origs acc = .error .MissingOrShuffledInputs) := by
  constructor
  · intro ctx proposal q h
    obtain ⟨-, in_stats, out_stats, hi, -, -⟩ := process_proposal_parts h
    unfold Context.check_inputs at hi
    have hsub := check_inputs_go_sublist ctx proposal.input_pairs
      ctx.original_psbt.input_pairs 0 in_stats hi
    refine ⟨?_, hsub⟩
    have := hsub.map Prod.fst
    simpa [List.map_map, Function.comp_def, inputKey] using this
  · intro ctx origs acc h
    exact check_inputs_go_not_exhausted ctx origs acc h

/-- C3 witness: the accepted scenario-A proposal preserves the original
inputs, and a non-exhausted cursor yields `MissingOrShuffledInputs`. -/
theorem C3_witness :
    ((ctxA.original_psbt.input_pairs.map inputKey).Sublist
      (proposalA.input_pairs.map inputKey)) ∧
    Context.check_inputs_go ctxA [] [⟨⟨outpoint0, emptyScript, 5⟩, PsbtInput.empty⟩] 0 =
      .error .MissingOrShuffledInputs :=
  ⟨(C3_input_preservation.1 ctxA proposalA proposalA rfl).2,
   C3_input_preservation.2 ctxA [⟨⟨outpoint0, emptyScript, 5⟩, PsbtInput.empty⟩] 0
     (by simp)⟩

/-- C4: every proposal accepted by `process_proposal` satisfies the fee
checks: the accumulated input value dominates the accumulated output value
(no inflation), the proposed fee `in_total - out_total` dominates the
original fee — the latter computed by `calculate_psbt_fee` as the sum of
the original inputs' prevout values minus the sum of the original output
values — and the contributed fee is at most `proposed_fee - original_fee`;
and the corresponding violations produce `Inflation`,
`AbsoluteFeeDecreased` and `PayeeTookContributedFee` respectively. -/
theorem C4_fee_checks :
    (∀ (ctx : Context) (proposal q : Psbt),
      ctx.process_proposal proposal = .ok q →
      ∃ in_stats out_stats original_fee total_inputs,
        ctx.check_inputs proposal = .ok in_stats ∧
        ctx.check_outputs proposal = .ok out_stats ∧
        calculate_psbt_fee ctx.original_psbt = .ok original_fee ∧
        sum_prevout_values ctx.original_psbt.input_pairs = .ok total_inputs ∧
        original_fee =
          total_inputs - (ctx.original_psbt.tx.output.map TxOut.value).sum ∧
        out_stats.total_value ≤ in_stats.total_value ∧
        original_fee ≤ in_stats.total_value - out_stats.total_value ∧
        out_stats.contributed_fee ≤
          (in_stats.total_value - out_stats.total_value) - original_fee) ∧
    (∀ (ctx : Context) (proposal : Psbt) (iS : InputStats) (oS : OutputStats),
      iS.total_value < oS.total_value →
      ctx.check_fees proposal iS oS = .error .Inflation) ∧
    (∀ (ctx : Context) (proposal : Psbt) (iS : InputStats) (oS : OutputStats)
        (original_fee : Nat),
      ¬iS.total_value < oS.total_value →
      calculate_psbt_fee ctx.original_psbt = .ok original_fee →
      iS.total_value - oS.total_value < original_fee →
      ctx.check_fees proposal iS oS = .error .AbsoluteFeeDecreased) ∧
    (∀ (ctx : Context) (proposal : Psbt) (iS : InputStats) (oS : OutputStats)
        (original_fee : Nat),
      ¬iS.total_value < oS.total_value →
      calculate_psbt_fee ctx.original_psbt = .ok original_fee →
      original_fee ≤ iS.total_value - oS.total_value →
      (iS.total_value - oS.total_value) - original_fee < oS.contributed_fee →
      ctx.check_fees proposal iS oS = .error .PayeeTookContributedFee) := by
  refine ⟨?_, ?_, ?_, ?_⟩
  · intro ctx proposal q h
    obtain ⟨-, in_stats, out_stats, hi, ho, hf⟩ := process_proposal_parts h
    obtain ⟨original_fee, hc, hnoinf, habs, hpayee, -⟩ := check_fees_ok hf
    obtain ⟨total_inputs, hsum, -, hfeedef⟩ := calculate_psbt_fee_ok hc
    exact ⟨in_stats, out_stats, original_fee, total_inputs,
      hi, ho, hc, hsum, hfeedef, hnoinf, habs, hpayee⟩
  · intro ctx proposal iS oS hlt
    unfold Context.check_fees
    rw [if_pos hlt]
  · intro ctx proposal iS oS original_fee h1 h2 h3
    unfold Context.check_fees
    rw [if_neg h1, h2]
    dsimp only
    rw [if_pos (by omega)]
  · intro ctx proposal iS oS original_fee h1 h2 h3 h4
    unfold Context.check_fees
    rw [if_neg h1, h2]
    dsimp only
    rw [if_neg (by omega), if_pos (by omega)]

/-- C4 witness: the fee consequences on the accepted scenario-A proposal,
and the `Inflation` error on an inflating stats pair. -/
theorem C4_witness :
    ctxA.process_proposal proposalA = .ok proposalA ∧
    (∃ in_stats out_stats original_fee total_inputs,
      ctxA.check_inputs proposalA = .ok in_stats ∧
      ctxA.check_outputs proposalA = .ok out_stats ∧
      calculate_psbt_fee ctxA.original_psbt = .ok original_fee ∧
      sum_prevout_values ctxA.original_psbt.input_pairs = .ok total_inputs ∧
      original_fee =
        total_inputs - (ctxA.original_psbt.tx.output.map TxOut.value).sum ∧
      out_stats.total_value ≤ in_stats.total_value ∧
      original_fee ≤ in_stats.total_value - out_stats.total_value ∧
      out_stats.contributed_fee ≤
        (in_stats.total_value - out_stats.total_value) - original_fee) ∧
    Context.check_fees ctxA proposalA ⟨10⟩ ⟨11, 0⟩ = .error .Inflation :=
  ⟨rfl, C4_fee_checks.1 ctxA proposalA proposalA rfl,
   C4_fee_checks.2.1 ctxA proposalA ⟨10⟩ ⟨11, 0⟩ (by decide)⟩

/-- C5: for every proposal accepted by `process_proposal`, the contributed
fee is bounded by `(original_fee / original_weight) *
expected_input_weight(input_type) * (proposal.inputs.len -
original.inputs.len)` — the fee rate computed by integer division first
and only then multiplied by the weight term. -/
theorem C5_contribution_weight_bound :
    ∀ (ctx : Context) (proposal q : Psbt),
      ctx.process_proposal proposal = .ok q →
      ∃ out_stats original_fee,
        ctx.check_outputs proposal = .ok out_stats ∧
        calculate_psbt_fee ctx.original_psbt = .ok original_fee ∧
        out_stats.contributed_fee ≤
          original_fee / ctx.original_psbt.tx.weight *
            ctx.input_type.expected_input_weight *
            (proposal.inputs.length - ctx.original_psbt.inputs.length) := by
  intro ctx proposal q h
  obtain ⟨-, in_stats, out_stats, -, ho, hf⟩ := process_proposal_parts h
  obtain ⟨original_fee, hc, -, -, -, hbound⟩ := check_fees_ok hf
  exact ⟨out_stats, original_fee, ho, hc, hbound⟩

/-- C5 witness: the bound evaluated on the accepted scenario-B proposal. -/
theorem C5_witness :
    ctxB.process_proposal proposalB = .ok proposalB ∧
    ∃ out_stats original_fee,
      ctxB.check_outputs proposalB = .ok out_stats ∧
      calculate_psbt_fee ctxB.original_psbt = .ok original_fee ∧
      out_stats.contributed_fee ≤
        original_fee / ctxB.original_psbt.tx.weight *
          ctxB.input_type.expected_input_weight *
          (proposalB.inputs.length - ctxB.original_psbt.inputs.length) :=
  ⟨rfl, C5_contribution_weight_bound ctxB proposalB proposalB rfl⟩

/-- C10: whenever `check_inputs` succeeds (so in particular whenever
`check_fees` is reached), and both PSBTs satisfy the decode-time invariant
that record counts equal transaction input counts, the proposal has at
least as many inputs as the original, so the added-input count
`proposal.inputs.len() - original_psbt.inputs.len()` in `check_fees` does
not underflow. -/
theorem C10_added_inputs_no_underflow :
    ∀ (ctx : Context) (proposal : Psbt) (s : InputStats),
      ctx.check_inputs proposal = .ok s →
      ctx.original_psbt.tx.input.length = ctx.original_psbt.inputs.length →
      proposal.tx.input.length = proposal.inputs.length →
      ctx.original_psbt.inputs.length ≤ proposal.inputs.length := by
  intro ctx proposal s h h1 h2
  unfold Context.check_inputs at h
  have hsub := check_inputs_go_sublist ctx proposal.input_pairs
    ctx.original_psbt.input_pairs 0 s h
  have hlen := hsub.length_le
  rw [List.length_map, List.length_map, input_pairs_length _ h1,
    input_pairs_length _ h2] at hlen
  exact hlen

/-- C10 witness: the bound on the accepted scenario-A pair. -/
theorem C10_witness :
    ctxA.check_inputs proposalA = .ok ⟨2000⟩ ∧
    ctxA.original_psbt.inputs.length ≤ proposalA.inputs.length :=
  ⟨rfl, C10_added_inputs_no_underflow ctxA proposalA ⟨2000⟩ rfl rfl rfl⟩

end Bip78

